import Mathlib

/-!
Verification development for the arxiv-daily batch job (src/daily_arxiv.py).

The Python module is shallowly embedded: Python dicts become key-ordered
association lists with Python insertion/update semantics, exceptions become
an explicit error type threaded through results, and the external world
(the literature search client, the code-link HTTP endpoint, the filesystem
and the clock) is passed in as explicit parameters.
-/

namespace DailyArxiv

/-- Python exceptions relevant to this module. -/
inductive PyErr where
  | nameError (name : String)
  | typeError (msg : String)
  | attributeError (msg : String)
deriving DecidableEq

/-- A minimal model of Python values as they appear in parsed JSON responses:
None, booleans, strings and string-keyed dictionaries. -/
inductive PyVal where
  | none : PyVal
  | bool (b : Bool) : PyVal
  | str (s : String) : PyVal
  | dict (entries : List (String × PyVal)) : PyVal

/-- Python truthiness for the modelled values. -/
def pyTruthy : PyVal → Bool
  | PyVal.none => false
  | PyVal.bool b => b
  | PyVal.str s => !(s == "")
  | PyVal.dict es => !es.isEmpty

/-- Python string conversion, as used by f-string interpolation. -/
def pyStr : PyVal → String
  | PyVal.none => "None"
  | PyVal.bool b => if b then "True" else "False"
  | PyVal.str s => s
  | PyVal.dict _ => "\x7b...\x7d"

/-- A Python dict with string keys, modelled as a key-ordered association
list: insertion order is the list order and keys are unique in any dict
built by the program. -/
abbrev PyDict (V : Type) := List (String × V)

/-- The keys of a dict, in insertion order. -/
def dictKeys {V : Type} (d : PyDict V) : List String := d.map Prod.fst

/-- Dict lookup: the value stored under a key, if present. -/
def dictLookup {V : Type} : PyDict V → String → Option V
  | [], _ => Option.none
  | (k0, v) :: rest, k => if k0 = k then some v else dictLookup rest k

/-- Python dict item assignment: an existing key keeps its position and gets
the new value, a fresh key is appended at the end. -/
def dictSet {V : Type} (d : PyDict V) (k : String) (v : V) : PyDict V :=
  if k ∈ dictKeys d then d.map (fun p => if p.1 = k then (k, v) else p)
  else d ++ [(k, v)]

/-- The Python dict-union expression with a double splat of a then b:
start from the items of a and write every item of b over it in order, so
on a key collision the value from b stands. This embeds the expression
merged_data = dict-splat of papers then existing_data in
update_category_data (src/daily_arxiv.py line 111). -/
def pyDoubleSplat {V : Type} (a b : PyDict V) : PyDict V :=
  b.foldl (fun d p => dictSet d p.1 p.2) a

/-- One stored paper record, with the fields written to papers.json. -/
structure PaperRecord where
  title : String
  authors : String
  abstract : String
  pdf : String
  code : PyVal
  updated : String

/-- One author object from the search API (only the name is used). -/
structure Author where
  name : String
deriving DecidableEq

/-- One result object from the literature search client: the fields of the
hit that fetch_papers reads. -/
structure ArxivHit where
  short_id : String
  title : String
  summary : String
  authors : List Author
  updated_date : String

/-- The global string constant ARXIV_URL of the module. -/
def ARXIV_URL : String := "http://arxiv.org/"

/-- The global string constant GITHUB_API_URL of the module (unused by the
pipeline). -/
def GITHUB_API_URL : String := "https://api.github.com/search/repositories"

/-- get_authors: the sole first author name in first-author mode, else the
comma-joined names. -/
def get_authors (authors : List Author) (first_author : Bool) : String :=
  if first_author then (authors.headD ⟨""⟩).name
  else String.intercalate ", " (authors.map Author.name)

/-- The clean_id expression of fetch_papers: paper_id.split for separator v,
component zero, which is exactly the longest prefix of the identifier
holding no letter v. -/
def cleanId (paper_id : String) : String :=
  String.mk (paper_id.data.takeWhile (fun c => c != 'v'))

/-- The outcome of the code-link HTTP call requests.get followed by .json():
either some exception was raised (network or parse failure), or a parsed
JSON value came back. -/
inductive CodeApiOutcome where
  | raised
  | returned (response : PyVal)

/-- The Python method call x.get(key, default): works on dicts, raises an
AttributeError on any non-dict receiver. -/
def pyGet (v : PyVal) (key : String) (default : PyVal) : Except PyErr PyVal :=
  match v with
  | PyVal.dict es => Except.ok ((dictLookup es key).getD default)
  | _ => Except.error (PyErr.attributeError "object has no attribute get")

/-- get_code_link: queries the code-link endpooint and reads
response.get with key official and empty-dict default, then .get with key
url on the result; every exception inside the try block is caught, logged,
and turned into a Python None return. -/
def get_code_link (outcome : CodeApiOutcome) : PyVal :=
  match outcome with
  | CodeApiOutcome.raised => PyVal.none
  | CodeApiOutcome.returned response =>
    match (pyGet response "official" (PyVal.dict [])).bind
        (fun official => pyGet official "url" PyVal.none) with
    | Except.ok v => v
    | Except.error _ => PyVal.none

/-- The Python or expression: the left value when truthy, else the right. -/
def pyOr (v fallback : PyVal) : PyVal := if pyTruthy v then v else fallback

/-- The body of the result loop of fetch_papers (src/daily_arxiv.py lines
67 to 88): builds the key and record stored for one hit. The code-link
endpoint is passed as a function from the queried identifier to the
outcome of the HTTP call. -/
def buildRecord (result : ArxivHit) (codeApi : String → CodeApiOutcome) :
    String × PaperRecord :=
  let paper_id := result.short_id
  let update_time := result.updated_date
  let clean_id := cleanId paper_id
  let pdf_url := ARXIV_URL ++ "abs/" ++ clean_id
  let abstract := result.summary.replace "\n" " "
  let code_link := pyOr (get_code_link (codeApi clean_id)) (PyVal.str "null")
  (paper_id,
   { title := result.title
     authors := get_authors result.authors false
     abstract := abstract
     pdf := pdf_url
     code := code_link
     updated := update_time })

/-- The papers dict built by the result loop of fetch_papers. -/
def fetchLoop (hits : List ArxivHit) (codeApi : String → CodeApiOutcome) :
    PyDict PaperRecord :=
  hits.foldl (fun papers r => let p := buildRecord r codeApi; dictSet papers p.1 p.2) []

/-- The names bound at module level of src/daily_arxiv.py when fetch_papers
runs: the imported modules, the typing imports, the module constants and the
module functions. -/
def moduleNames : List String :=
  ["os", "re", "json", "arxiv", "yaml", "logging", "argparse", "datetime",
   "requests", "Dict", "List", "BASE_DIR", "ARXIV_URL", "GITHUB_API_URL",
   "load_config", "get_authors", "sort_papers", "get_code_link",
   "fetch_papers", "update_category_data", "generate_markdown", "main"]

/-- Evaluation of a bare name in the module scope: a NameError when the name
is not bound at module level. -/
def resolveName (n : String) : Except PyErr Unit :=
  if moduleNames.contains n then Except.ok () else Except.error (PyErr.nameError n)

/-- fetch_papers: the first statement evaluates the bare name Client, which
is not bound anywhere in the module. Were it resolved, the loop would build
the papers dict, the count would be printed, and — the return statement
being commented out in the source — the function would fall off its end and
yield Python None. -/
def fetch_papers (query : String) (max_results : Nat) (hits : List ArxivHit)
    (codeApi : String → CodeApiOutcome) : Except PyErr (Option (PyDict PaperRecord)) := do
  let _client ← resolveName "Client"
  let _papers := fetchLoop hits codeApi
  pure Option.none

/-- One category entry as it reads from the YAML file. -/
structure CategoryIn where
  query : String
  output_dir : String
deriving DecidableEq

/-- One category entry after load_config added the derived paths. -/
structure CategoryConfig where
  query : String
  output_dir : String
  json_path : String
  md_path : String
deriving DecidableEq

/-- The parsed YAML configuration before path derivation. -/
structure ConfigIn where
  categories : List (String × CategoryIn)
  max_results : Nat
deriving DecidableEq

/-- The configuration returned by load_config. -/
structure Config where
  categories : List (String × CategoryConfig)
  max_results : Nat
deriving DecidableEq

/-- os.path.join for one joined component on POSIX: an absolute second
component replaces the first, otherwise the parts are glued with exactly
one separating slash. -/
def osPathJoin (a b : String) : String :=
  if b.startsWith "/" then b
  else if a = "" ∨ a.endsWith "/" then a ++ b
  else a ++ "/" ++ b

/-- os.path.basename on POSIX: the part after the last slash. -/
def osBasename (p : String) : String := (p.splitOn "/").getLastD ""

/-- load_config after the YAML parse succeeded: every category entry gets
json_path and md_path derived by joining its output_dir with the two fixed
file names. -/
def load_config (c : ConfigIn) : Config :=
  { categories := c.categories.map (fun p =>
      (p.1,
       { query := p.2.query
         output_dir := p.2.output_dir
         json_path := osPathJoin p.2.output_dir "papers.json"
         md_path := osPathJoin p.2.output_dir "README.md" }))
    max_results := c.max_results }

/-- Python str.title(): the first letter of every letter run is upcased,
the following letters are downcased, other characters pass through. -/
def pyTitle (s : String) : String :=
  String.mk ((s.data.foldl
    (fun acc c =>
      let out := if c.isAlpha then (if acc.2 then c.toLower else c.toUpper) else c
      (acc.1 ++ [out], c.isAlpha)) ([], false)).1)

/-- The comparison passed to sorted in generate_markdown: sorted with the
updated field as key and reverse set, which orders a before b exactly when
the updated string of b is at most that of a. -/
def updatedDesc (a b : PaperRecord) : Bool := decide (b.updated ≤ a.updated)

/-- The sorted call of generate_markdown: a stable sort of the record list,
by the updated field, descending. -/
def sortByUpdatedDesc (papers : List PaperRecord) : List PaperRecord :=
  papers.mergeSort updatedDesc

/-- The test paper.code different from the string null, guarding the code
cell of a Markdown row. -/
def isNullSentinel : PyVal → Bool
  | PyVal.str s => s == "null"
  | _ => false

/-- The code cell of one Markdown table row. -/
def mdCodeCell (code : PyVal) : String :=
  if isNullSentinel code then "null" else "[Code](" ++ pyStr code ++ ")"

/-- One Markdown table row of generate_markdown. -/
def mdRow (paper : PaperRecord) : String :=
  "| " ++ paper.updated ++ " | " ++ paper.title ++ " | " ++ paper.authors ++
    " | [PDF](" ++ paper.pdf ++ ") | " ++ mdCodeCell paper.code ++ " |"

/-- generate_markdown: the document content as the list of lines joined on
write, namely the title line, the last-updated line, the table header, the
separator, then one row per record in descending updated order. The render
date is passed in for datetime.date.today(). -/
def generate_markdown (data : PyDict PaperRecord) (category_name : String)
    (today : String) : List String :=
  let sorted_papers := sortByUpdatedDesc (data.map Prod.snd)
  ["# " ++ pyTitle (category_name.replace "-" " ") ++ " Papers",
   "*Last Updated: " ++ today ++ "*\n",
   "| Date | Title | Authors | PDF | Code |",
   "|------|-------|---------|-----|------|"]
    ++ sorted_papers.map mdRow

/-- The observable effects of one update_category_data call: whether the
output directory was ensured, the dict written to papers.json if the write
was reached, the lines written to README.md if that write was reached, and
the exception escaping the call if any. -/
structure UpdateEffects where
  dirCreated : Bool
  jsonWritten : Option (PyDict PaperRecord)
  mdWritten : Option (List String)
  error : Option PyErr

/-- The merge expression of update_category_data applied to the value the
fetch produced: a double splat of Python None raises a TypeError, a double
splat of a dict unions it with the existing data, existing values standing
on key collisions. -/
def mergePapers (papers : Option (PyDict PaperRecord))
    (existing_data : PyDict PaperRecord) : Except PyErr (PyDict PaperRecord) :=
  match papers with
  | Option.none => Except.error (PyErr.typeError "NoneType object is not a mapping")
  | some d => Except.ok (pyDoubleSplat d existing_data)

/-- The tail of update_category_data after the fetch call: merge the fetched
value with the existing store, write the merged dict to json_path, render
and write the Markdown. The existing store stands for the loaded JSON file,
or the empty dict when the file does not exist. -/
def updateTail (papers : Option (PyDict PaperRecord))
    (existing_data : PyDict PaperRecord) (category_config : CategoryConfig)
    (today : String) : UpdateEffects :=
  match mergePapers papers existing_data with
  | Except.error e =>
    { dirCreated := true, jsonWritten := Option.none, mdWritten := Option.none,
      error := some e }
  | Except.ok merged_data =>
    { dirCreated := true
      jsonWritten := some merged_data
      mdWritten := some (generate_markdown merged_data
        (osBasename category_config.output_dir) today)
      error := Option.none }

/-- The part of the external world one category update touches: the loaded
existing store, the hits the search client would deliver, the code-link
endpoint and the render date. -/
structure CatWorld where
  existing : PyDict PaperRecord
  hits : List ArxivHit
  codeApi : String → CodeApiOutcome
  today : String

/-- update_category_data: os.makedirs first ensures the output directory
(idempotent), then the fetch runs; an exception from the fetch escapes
before any file write, otherwise the merge, persist and render tail runs. -/
def update_category_data (category_config : CategoryConfig)
    (global_config : Config) (w : CatWorld) : UpdateEffects :=
  match fetch_papers category_config.query global_config.max_results
      w.hits w.codeApi with
  | Except.error e =>
    { dirCreated := true, jsonWritten := Option.none, mdWritten := Option.none,
      error := some e }
  | Except.ok papers => updateTail papers w.existing category_config w.today

/-- The message text of an exception, as str renders it in the log line. -/
def errText : PyErr → String
  | PyErr.nameError n => "name " ++ n ++ " is not defined"
  | PyErr.typeError m => m
  | PyErr.attributeError m => m

/-- The loop of main over the configured categories: each iteration logs a
start line, runs the category update inside try, and logs either success or
the caught error together with the category name; the loop always moves on
to the next category. -/
def mainLoop (config : Config) (world : String → CatWorld) :
    List (String × CategoryConfig) → List (String × UpdateEffects) × List String
  | [] => ([], [])
  | (cat_name, cat_config) :: rest =>
    let eff := update_category_data cat_config config (world cat_name)
    let line :=
      match eff.error with
      | some e => "Failed to process " ++ cat_name ++ ": " ++ errText e
      | Option.none => "Successfully updated " ++ cat_name
    let r := mainLoop config world rest
    ((cat_name, eff) :: r.1,
     ("🚀 Processing category: " ++ cat_name) :: line :: r.2)

/-- main: processes the categories of the configuration in declared order,
returning the per-category effects and the log lines. -/
def main (config : Config) (world : String → CatWorld) :
    List (String × UpdateEffects) × List String :=
  mainLoop config world config.categories

/-- A fetched sample record, matching the end-to-end scenario of the spec. -/
def rec1 : PaperRecord :=
  { title := "Example Paper", authors := "Jane Doe", abstract := "Line1 Line2",
    pdf := "http://arxiv.org/abs/2401.00001", code := PyVal.str "null",
    updated := "2024-01-02" }

/-- A stored sample record sharing no field values with rec1 except the pdf
and code fields. -/
def rec2 : PaperRecord :=
  { title := "Stored Paper", authors := "John Roe", abstract := "Old abstract",
    pdf := "http://arxiv.org/abs/2401.00001", code := PyVal.str "null",
    updated := "2024-01-01" }

/-- A sample category configuration. -/
def catA : CategoryConfig :=
  { query := "cat:cs.CL", output_dir := "papers/cs.CL",
    json_path := "papers/cs.CL/papers.json", md_path := "papers/cs.CL/README.md" }

/-- A second, independent sample category configuration. -/
def catB : CategoryConfig :=
  { query := "cat:cs.CV", output_dir := "papers/cs.CV",
    json_path := "papers/cs.CV/papers.json", md_path := "papers/cs.CV/README.md" }

/-- A configuration with two independent categories. -/
def twoCatConfig : Config :=
  { categories := [("cs.CL", catA), ("cs.CV", catB)], max_results := 1 }

/-- A sample search hit, matching the end-to-end scenario of the spec. -/
def sampleHit : ArxivHit :=
  { short_id := "2401.00001v1", title := "Example Paper", summary := "Line1\nLine2",
    authors := [⟨"Jane Doe"⟩], updated_date := "2024-01-02" }

/-- A sample external world: empty stores, one hit per category, a failing
code-link endpoint and a fixed render date. -/
def sampleWorld : String → CatWorld := fun _ =>
  { existing := [], hits := [sampleHit], codeApi := fun _ => CodeApiOutcome.raised,
    today := "2024-01-02" }

/-- A sample parsed configuration file with one category. -/
def sampleConfigIn : ConfigIn :=
  { categories := [("cs.CL", { query := "cat:cs.CL", output_dir := "papers/cs.CL" })],
    max_results := 1 }

/-- The category entry load_config produces from sampleConfigIn. -/
def sampleEntry : String × CategoryConfig :=
  ("cs.CL",
   { query := "cat:cs.CL", output_dir := "papers/cs.CL",
     json_path := osPathJoin "papers/cs.CL" "papers.json",
     md_path := osPathJoin "papers/cs.CL" "README.md" })

theorem dictLookup_cons {V : Type} (k0 : String) (v : V) (rest : PyDict V) (k : String) :
    dictLookup ((k0, v) :: rest) k = if k0 = k then some v else dictLookup rest k := rfl

theorem dictLookup_isSome_iff {V : Type} (d : PyDict V) (k : String) :
    (∃ x, dictLookup d k = some x) ↔ k ∈ dictKeys d := by
  induction d with
  | nil => simp [dictLookup, dictKeys]
  | cons p rest ih =>
    obtain ⟨k0, v⟩ := p
    by_cases h : k0 = k
    · subst h
      simp [dictLookup_cons, dictKeys]
    · have hs : ¬k = k0 := fun hc => h hc.symm
      simp [dictLookup_cons, h, hs, dictKeys] at ih ⊢
      exact ih

theorem dictLookup_eq_none_iff {V : Type} (d : PyDict V) (k : String) :
    dictLookup d k = Option.none ↔ k ∉ dictKeys d := by
  rw [← dictLookup_isSome_iff]
  cases h : dictLookup d k <;> simp [h]

theorem dictLookup_append {V : Type} (d1 d2 : PyDict V) (k : String) :
    dictLookup (d1 ++ d2) k = (dictLookup d1 k).or (dictLookup d2 k) := by
  induction d1 with
  | nil => simp [dictLookup]
  | cons p rest ih =>
    obtain ⟨k0, v⟩ := p
    rw [List.cons_append, dictLookup_cons, dictLookup_cons]
    by_cases h : k0 = k
    · rw [if_pos h, if_pos h]
      rfl
    · rw [if_neg h, if_neg h, ih]

theorem dictLookup_replace {V : Type} (d : PyDict V) (k : String) (v : V) (k1 : String) :
    dictLookup (d.map (fun p => if p.1 = k then (k, v) else p)) k1 =
      if k1 = k then (dictLookup d k).map (fun _ => v) else dictLookup d k1 := by
  induction d with
  | nil => cases h : decide (k1 = k) <;> simp [dictLookup]
  | cons p rest ih =>
    obtain ⟨k0, w⟩ := p
    by_cases h0 : k0 = k
    · subst h0
      by_cases h1 : k1 = k0
      · subst h1
        simp [dictLookup_cons]
      · have h1s : ¬k0 = k1 := fun hc => h1 hc.symm
        simp [dictLookup_cons, h1, h1s, ih]
    · by_cases h1 : k1 = k
      · subst h1
        have h0s : ¬k0 = k1 := h0
        simp [dictLookup_cons, h0, h0s, ih]
      · by_cases h2 : k0 = k1
        · subst h2
          simp [dictLookup_cons, h0, h1, ih]
        · simp [dictLookup_cons, h0, h1, h2, ih]

theorem dictLookup_dictSet {V : Type} (d : PyDict V) (k : String) (v : V) (k1 : String) :
    dictLookup (dictSet d k v) k1 = if k1 = k then some v else dictLookup d k1 := by
  unfold dictSet
  by_cases hmem : k ∈ dictKeys d
  · rw [if_pos hmem, dictLookup_replace]
    by_cases h1 : k1 = k
    · rw [if_pos h1, if_pos h1]
      obtain ⟨x, hx⟩ := (dictLookup_isSome_iff d k).mpr hmem
      rw [hx]
      rfl
    · rw [if_neg h1, if_neg h1]
  · rw [if_neg hmem, dictLookup_append]
    by_cases h1 : k1 = k
    · rw [if_pos h1, h1, (dictLookup_eq_none_iff d k).mpr hmem]
      rw [dictLookup_cons, if_pos rfl]
      rfl
    · rw [if_neg h1]
      have hnil : dictLookup [(k, v)] k1 = Option.none := by
        rw [dictLookup_cons, if_neg (fun hc => h1 hc.symm)]
        rfl
      rw [hnil]
      cases dictLookup d k1 <;> rfl

theorem dictKeys_dictSet {V : Type} (d : PyDict V) (k : String) (v : V) :
    dictKeys (dictSet d k v) =
      if k ∈ dictKeys d then dictKeys d else dictKeys d ++ [k] := by
  unfold dictSet
  by_cases hmem : k ∈ dictKeys d
  · rw [if_pos hmem, if_pos hmem]
    unfold dictKeys
    rw [List.map_map]
    apply List.map_congr_left
    intro p _
    by_cases h : p.1 = k
    · simp [h]
    · simp [h]
  · rw [if_neg hmem, if_neg hmem]
    simp [dictKeys]

theorem mem_dictKeys_dictSet {V : Type} (d : PyDict V) (k : String) (v : V) (k1 : String) :
    k1 ∈ dictKeys (dictSet d k v) ↔ k1 ∈ dictKeys d ∨ k1 = k := by
  rw [dictKeys_dictSet]
  by_cases hmem : k ∈ dictKeys d
  · rw [if_pos hmem]
    constructor
    · exact Or.inl
    · rintro (h | rfl)
      · exact h
      · exact hmem
  · rw [if_neg hmem]
    simp

theorem pyDoubleSplat_cons {V : Type} (a : PyDict V) (p : String × V) (rest : PyDict V) :
    pyDoubleSplat a (p :: rest) = pyDoubleSplat (dictSet a p.1 p.2) rest := rfl

theorem mem_dictKeys_pyDoubleSplat_left {V : Type} (b a : PyDict V) (k : String)
    (hk : k ∈ dictKeys a) : k ∈ dictKeys (pyDoubleSplat a b) := by
  induction b generalizing a with
  | nil => exact hk
  | cons p rest ih =>
    rw [pyDoubleSplat_cons]
    exact ih _ ((mem_dictKeys_dictSet a p.1 p.2 k).mpr (Or.inl hk))

theorem mem_dictKeys_pyDoubleSplat_right {V : Type} (b a : PyDict V) (k : String)
    (hk : k ∈ dictKeys b) : k ∈ dictKeys (pyDoubleSplat a b) := by
  induction b generalizing a with
  | nil => simp [dictKeys] at hk
  | cons p rest ih =>
    obtain ⟨k0, v⟩ := p
    rw [pyDoubleSplat_cons]
    rcases List.mem_cons.mp hk with h | h
    · exact mem_dictKeys_pyDoubleSplat_left rest _ k
        ((mem_dictKeys_dictSet a k0 v k).mpr (Or.inr h))
    · exact ih _ h

theorem dictLookup_pyDoubleSplat {V : Type} (b a : PyDict V)
    (hb : (dictKeys b).Nodup) (k : String) :
    dictLookup (pyDoubleSplat a b) k = (dictLookup b k).or (dictLookup a k) := by
  induction b generalizing a with
  | nil => simp [pyDoubleSplat, dictLookup]
  | cons p rest ih =>
    obtain ⟨k0, v⟩ := p
    simp only [dictKeys, List.map_cons, List.nodup_cons] at hb
    rw [pyDoubleSplat_cons, ih _ hb.2, dictLookup_dictSet, dictLookup_cons]
    by_cases h : k0 = k
    · rw [if_pos h, if_pos h.symm]
      rw [(dictLookup_eq_none_iff rest k).mpr (h ▸ hb.1)]
      rfl
    · rw [if_neg h, if_neg (fun hc => h hc.symm)]

theorem dictKeys_pyDoubleSplat {V : Type} (b a : PyDict V)
    (hb : (dictKeys b).Nodup) :
    dictKeys (pyDoubleSplat a b) =
      dictKeys a ++ (dictKeys b).filter (fun x => decide (x ∉ dictKeys a)) := by
  induction b generalizing a with
  | nil => simp [pyDoubleSplat, dictKeys]
  | cons p rest ih =>
    obtain ⟨k0, v⟩ := p
    simp only [dictKeys, List.map_cons, List.nodup_cons] at hb
    rw [pyDoubleSplat_cons, ih _ hb.2]
    show dictKeys (dictSet a k0 v) ++ _ = _
    rw [dictKeys_dictSet]
    by_cases hmem : k0 ∈ dictKeys a
    · rw [if_pos hmem]
      have hk : dictKeys ((k0, v) :: rest) = k0 :: dictKeys rest := rfl
      rw [hk, List.filter_cons]
      have hd : (decide (k0 ∉ dictKeys a) : Bool) = false := by simp [hmem]
      rw [hd]
      simp
    · rw [if_neg hmem]
      have hfc : ∀ x ∈ dictKeys rest,
          (decide (x ∉ dictKeys a ++ [k0]) : Bool) = decide (x ∉ dictKeys a) := by
        intro x hx
        apply decide_eq_decide.mpr
        have hxk0 : x ≠ k0 := fun hc => hb.1 (hc ▸ hx)
        simp [hxk0]
      rw [List.filter_congr hfc]
      have hk : dictKeys ((k0, v) :: rest) = k0 :: dictKeys rest := rfl
      rw [hk, List.filter_cons]
      have hd : (decide (k0 ∉ dictKeys a) : Bool) = true := by simp [hmem]
      rw [hd]
      simp

theorem dict_ext {V : Type} :
    ∀ (a b : PyDict V), dictKeys a = dictKeys b → (dictKeys a).Nodup →
      (∀ k, dictLookup a k = dictLookup b k) → a = b
  | [], b, hkeys, _, _ => by
    have : dictKeys b = [] := hkeys.symm
    cases b with
    | nil => rfl
    | cons p r => simp [dictKeys] at this
  | (k0, v) :: rest, b, hkeys, hnd, hlook => by
    cases b with
    | nil => simp [dictKeys] at hkeys
    | cons q rest2 =>
      obtain ⟨k1, w⟩ := q
      simp only [dictKeys, List.map_cons, List.cons.injEq] at hkeys
      obtain ⟨hk01, htails⟩ := hkeys
      simp only [dictKeys, List.map_cons, List.nodup_cons] at hnd
      have hval : v = w := by
        have := hlook k0
        rw [dictLookup_cons, dictLookup_cons, if_pos rfl, if_pos hk01.symm] at this
        exact Option.some.inj this
      have htl : ∀ k, dictLookup rest k = dictLookup rest2 k := by
        intro k
        by_cases hk : k0 = k
        · subst hk
          have hnd2 : k0 ∉ dictKeys rest2 := by
            show k0 ∉ List.map Prod.fst rest2
            rw [← htails]
            exact hnd.1
          rw [(dictLookup_eq_none_iff rest k0).mpr hnd.1,
            (dictLookup_eq_none_iff rest2 k0).mpr hnd2]
        · have := hlook k
          rw [dictLookup_cons, dictLookup_cons, if_neg hk, if_neg (hk01 ▸ hk)] at this
          exact this
      rw [hk01, hval, dict_ext rest rest2 htails hnd.2 htl]

theorem nodup_dictKeys_pyDoubleSplat {V : Type} (b a : PyDict V)
    (ha : (dictKeys a).Nodup) (hb : (dictKeys b).Nodup) :
    (dictKeys (pyDoubleSplat a b)).Nodup := by
  rw [dictKeys_pyDoubleSplat b a hb]
  refine List.Nodup.append ha (hb.filter _) ?_
  intro x hxa hxf
  exact (of_decide_eq_true ((List.mem_filter.mp hxf).2)) hxa

theorem pyDoubleSplat_idem {V : Type} (P E : PyDict V)
    (hP : (dictKeys P).Nodup) (hE : (dictKeys E).Nodup) :
    pyDoubleSplat P (pyDoubleSplat P E) = pyDoubleSplat P E := by
  have hD : (dictKeys (pyDoubleSplat P E)).Nodup := nodup_dictKeys_pyDoubleSplat E P hP hE
  have hkeysD := dictKeys_pyDoubleSplat E P hE
  have hkeys2 : dictKeys (pyDoubleSplat P (pyDoubleSplat P E)) =
      dictKeys (pyDoubleSplat P E) := by
    rw [dictKeys_pyDoubleSplat (pyDoubleSplat P E) P hD, hkeysD, List.filter_append]
    have h1 : List.filter (fun x => decide (x ∉ dictKeys P)) (dictKeys P) = [] := by
      rw [List.filter_eq_nil_iff]
      intro x hx
      simp [hx]
    have h2 : List.filter (fun x => decide (x ∉ dictKeys P))
        (List.filter (fun x => decide (x ∉ dictKeys P)) (dictKeys E)) =
        List.filter (fun x => decide (x ∉ dictKeys P)) (dictKeys E) := by
      rw [List.filter_eq_self]
      intro x hx
      exact (List.mem_filter.mp hx).2
    rw [h1, h2, List.nil_append]
  have hlook : ∀ k, dictLookup (pyDoubleSplat P (pyDoubleSplat P E)) k =
      dictLookup (pyDoubleSplat P E) k := by
    intro k
    rw [dictLookup_pyDoubleSplat (pyDoubleSplat P E) P hD k]
    cases hDk : dictLookup (pyDoubleSplat P E) k with
    | some x => rfl
    | none =>
      have hkD : k ∉ dictKeys (pyDoubleSplat P E) :=
        (dictLookup_eq_none_iff _ k).mp hDk
      have hkP : k ∉ dictKeys P := by
        intro hk
        exact hkD (by rw [hkeysD]; exact List.mem_append_left _ hk)
      rw [(dictLookup_eq_none_iff _ k).mpr hkP]
      rfl
  exact dict_ext _ _ hkeys2 (by rw [hkeys2]; exact hD) hlook

theorem updatedDesc_trans : ∀ a b c : PaperRecord,
    updatedDesc a b = true → updatedDesc b c = true → updatedDesc a c = true := by
  intro a b c hab hbc
  simp only [updatedDesc, decide_eq_true_eq] at hab hbc ⊢
  exact le_trans hbc hab

theorem updatedDesc_total : ∀ a b : PaperRecord,
    (updatedDesc a b || updatedDesc b a) = true := by
  intro a b
  simp only [updatedDesc, Bool.or_eq_true, decide_eq_true_eq]
  exact le_total b.updated a.updated

theorem update_category_data_run (cat : CategoryConfig) (g : Config) (w : CatWorld) :
    update_category_data cat g w =
      { dirCreated := true, jsonWritten := Option.none, mdWritten := Option.none,
        error := some (PyErr.nameError "Client") } := rfl

theorem mainLoop_processes (config : Config) (world : String → CatWorld) :
    ∀ cats : List (String × CategoryConfig),
      (mainLoop config world cats).1 =
        cats.map (fun c => (c.1, update_category_data c.2 config (world c.1))) ∧
      (mainLoop config world cats).2 =
        (cats.map (fun c =>
          ["🚀 Processing category: " ++ c.1,
           "Failed to process " ++ c.1 ++ ": " ++ errText (PyErr.nameError "Client")])).join := by
  intro cats
  induction cats with
  | nil => exact ⟨rfl, rfl⟩
  | cons c rest ih =>
    obtain ⟨name, cat⟩ := c
    constructor
    · show (name, update_category_data cat config (world name)) ::
          (mainLoop config world rest).1 =
        (name, update_category_data cat config (world name)) ::
          rest.map (fun c => (c.1, update_category_data c.2 config (world c.1)))
      exact congrArg _ ih.1
    · show ("🚀 Processing category: " ++ name) ::
          ("Failed to process " ++ name ++ ": " ++ errText (PyErr.nameError "Client")) ::
          (mainLoop config world rest).2 = _
      rw [ih.2]
      rfl

theorem takeWhile_all_append {α : Type} (p : α → Bool) (l1 l2 : List α)
    (h : ∀ c ∈ l1, p c = true) : (l1 ++ l2).takeWhile p = l1 ++ l2.takeWhile p := by
  induction l1 with
  | nil => simp
  | cons a t ih =>
    rw [List.cons_append, List.takeWhile_cons, h a (List.mem_cons_self a t), if_pos rfl]
    exact congrArg _ (ih (fun c hc => h c (List.mem_cons_of_mem a hc)))

/-- C1, counterexample: the claim says the merged store maps a shared
identifier to the freshly fetched record. In the code the merge is a double
splat with the fetched dict first and the existing dict second, so the
existing record survives a collision: with fetched record rec1 and stored
record rec2 under the same identifier, the merged store holds rec2. -/
theorem C1_counterexample :
    dictLookup (pyDoubleSplat [("2401.00001v1", rec1)] [("2401.00001v1", rec2)])
        "2401.00001v1" = some rec2 ∧ rec2 ≠ rec1 := by
  refine ⟨rfl, fun h => absurd (congrArg PaperRecord.title h) ?_⟩
  decide

/-- C1 (amended): for every fetched mapping P and existing store E, the
merged store is the union of E and P with E, the EXISTING side, taking
precedence on every key collision: the lookup in the merge is the lookup in
E, falling back to the lookup in P. -/
theorem C1_amended (P E : PyDict PaperRecord) (hE : (dictKeys E).Nodup) (k : String) :
    dictLookup (pyDoubleSplat P E) k = (dictLookup E k).or (dictLookup P k) :=
  dictLookup_pyDoubleSplat E P hE k

/-- Witness for C1 (amended) at a one-key collision. -/
theorem C1_amended_witness :
    (dictKeys ([("2401.00001v1", rec2)] : PyDict PaperRecord)).Nodup ∧
    dictLookup (pyDoubleSplat [("2401.00001v1", rec1)] [("2401.00001v1", rec2)])
        "2401.00001v1" =
      (dictLookup [("2401.00001v1", rec2)] "2401.00001v1").or
        (dictLookup [("2401.00001v1", rec1)] "2401.00001v1") :=
  ⟨by decide,
   C1_amended [("2401.00001v1", rec1)] [("2401.00001v1", rec2)] (by decide) "2401.00001v1"⟩

/-- C2, counterexample: the claim says that when the fetch returns no
value the merge, persist and render steps still complete on the existing
store alone. In the code a double splat of Python None raises a TypeError,
so at a concrete existing store nothing is written and the update ends with
the TypeError. -/
theorem C2_counterexample :
    (updateTail Option.none [("2401.00001v1", rec2)] catA "2024-01-02").jsonWritten
        = Option.none ∧
    (updateTail Option.none [("2401.00001v1", rec2)] catA "2024-01-02").mdWritten
        = Option.none ∧
    (updateTail Option.none [("2401.00001v1", rec2)] catA "2024-01-02").error
        = some (PyErr.typeError "NoneType object is not a mapping") :=
  ⟨rfl, rfl, rfl⟩

/-- C2 (amended): when the fetch routine returns no value, the merge step
raises a TypeError because None is not a mapping; the persist and render
steps do not run, for every existing store, category and date. -/
theorem C2_amended (existing : PyDict PaperRecord) (cat : CategoryConfig) (today : String) :
    (updateTail Option.none existing cat today).error =
        some (PyErr.typeError "NoneType object is not a mapping") ∧
    (updateTail Option.none existing cat today).jsonWritten = Option.none ∧
    (updateTail Option.none existing cat today).mdWritten = Option.none :=
  ⟨rfl, rfl, rfl⟩

/-- C3: for every query, result cap, hit list and code-link endpoint,
fetch_papers fails with a NameError on the unresolved name Client before
producing any record, and update_category_data consequently never reaches
the merge, JSON-write or Markdown-write steps, though the output directory
has already been created. -/
theorem C3_fetch_raises (query : String) (max_results : Nat) (hits : List ArxivHit)
    (codeApi : String → CodeApiOutcome) (cat : CategoryConfig) (g : Config) (w : CatWorld) :
    fetch_papers query max_results hits codeApi = Except.error (PyErr.nameError "Client") ∧
    (update_category_data cat g w).dirCreated = true ∧
    (update_category_data cat g w).jsonWritten = Option.none ∧
    (update_category_data cat g w).mdWritten = Option.none ∧
    (update_category_data cat g w).error = some (PyErr.nameError "Client") :=
  ⟨rfl, rfl, rfl, rfl, rfl⟩

/-- C4: when the code-link lookup raises a network or parse error, the
resolver catches it and returns Python None without propagating (its type
is a total function into values), and the constructed record carries the
absence sentinel null in its code field. -/
theorem C4_degrades_to_sentinel (result : ArxivHit) :
    get_code_link CodeApiOutcome.raised = PyVal.none ∧
    (buildRecord result (fun _ => CodeApiOutcome.raised)).2.code = PyVal.str "null" :=
  ⟨rfl, rfl⟩

/-- C5, counterexample: the claim says a second independent category in
the same run completes and writes its own JSON and Markdown files. In a
concrete two-category run the first category raises, the driver continues,
but the second category also fails with the NameError in fetch and writes
neither file. -/
theorem C5_counterexample :
    (main twoCatConfig sampleWorld).1.map
        (fun e => (e.1, e.2.error, e.2.jsonWritten, e.2.mdWritten)) =
      [("cs.CL", some (PyErr.nameError "Client"), Option.none, Option.none),
       ("cs.CV", some (PyErr.nameError "Client"), Option.none, Option.none)] := rfl

/-- C5 (amended): if the update of one category raises, the driver
catches it, logs the failure with the category name, and continues: every
configured category is processed, in order, with an outcome depending only
on its own configuration and world; with the current code every category
ends in the NameError from fetch, its directory created and neither file
written, and the log records the failure per category. -/
theorem C5_amended (config : Config) (world : String → CatWorld) :
    (main config world).1 =
      config.categories.map (fun c => (c.1, update_category_data c.2 config (world c.1))) ∧
    (∀ e ∈ (main config world).1,
        e.2.dirCreated = true ∧ e.2.error = some (PyErr.nameError "Client") ∧
        e.2.jsonWritten = Option.none ∧ e.2.mdWritten = Option.none) ∧
    (main config world).2 =
      (config.categories.map (fun c =>
        ["🚀 Processing category: " ++ c.1,
         "Failed to process " ++ c.1 ++ ": " ++ errText (PyErr.nameError "Client")])).join := by
  have hm1 : (main config world).1 =
      config.categories.map (fun c => (c.1, update_category_data c.2 config (world c.1))) :=
    (mainLoop_processes config world config.categories).1
  refine ⟨hm1, ?_, (mainLoop_processes config world config.categories).2⟩
  intro e he
  rw [hm1] at he
  obtain ⟨c, hc, rfl⟩ := List.mem_map.mp he
  rw [update_category_data_run]
  exact ⟨rfl, rfl, rfl, rfl⟩

/-- Witness for C5 (amended) on the two-category configuration. -/
theorem C5_amended_witness :
    (main twoCatConfig sampleWorld).1 =
      twoCatConfig.categories.map
        (fun c => (c.1, update_category_data c.2 twoCatConfig (sampleWorld c.1))) ∧
    (∀ e ∈ (main twoCatConfig sampleWorld).1,
        e.2.dirCreated = true ∧ e.2.error = some (PyErr.nameError "Client") ∧
        e.2.jsonWritten = Option.none ∧ e.2.mdWritten = Option.none) ∧
    (main twoCatConfig sampleWorld).2 =
      (twoCatConfig.categories.map (fun c =>
        ["🚀 Processing category: " ++ c.1,
         "Failed to process " ++ c.1 ++ ": " ++ errText (PyErr.nameError "Client")])).join :=
  C5_amended twoCatConfig sampleWorld

/-- C6: for every paper mapping, the rendered document after its four
header lines has exactly one table row per entry of the mapping, the rows
are the sorted records rendered in order, and the sorted records are
pairwise in descending lexicographic order of their updated field. -/
theorem C6_rows (data : PyDict PaperRecord) (category_name today : String) :
    ((generate_markdown data category_name today).drop 4).length = data.length ∧
    (generate_markdown data category_name today).drop 4 =
      (sortByUpdatedDesc (data.map Prod.snd)).map mdRow ∧
    (sortByUpdatedDesc (data.map Prod.snd)).Pairwise
      (fun a b => b.updated ≤ a.updated) := by
  have hdrop : (generate_markdown data category_name today).drop 4 =
      (sortByUpdatedDesc (data.map Prod.snd)).map mdRow := by
    simp [generate_markdown]
  refine ⟨?_, hdrop, ?_⟩
  · rw [hdrop]
    simp [sortByUpdatedDesc]
  · have h := List.sorted_mergeSort updatedDesc_trans updatedDesc_total (data.map Prod.snd)
    exact h.imp (fun hab => of_decide_eq_true hab)

/-- C7: every identifier present in the existing store is present in the
merged store; the merge never drops an existing record. -/
theorem C7_never_dropped (P E : PyDict PaperRecord) (k : String) (hk : k ∈ dictKeys E) :
    k ∈ dictKeys (pyDoubleSplat P E) :=
  mem_dictKeys_pyDoubleSplat_right E P k hk

/-- Witness for C7 at a one-key collision. -/
theorem C7_never_dropped_witness :
    "2401.00001v1" ∈ dictKeys ([("2401.00001v1", rec2)] : PyDict PaperRecord) ∧
    "2401.00001v1" ∈
      dictKeys (pyDoubleSplat [("2401.00001v1", rec1)] [("2401.00001v1", rec2)]) :=
  ⟨by decide,
   C7_never_dropped [("2401.00001v1", rec1)] [("2401.00001v1", rec2)] "2401.00001v1" (by decide)⟩

/-- C8: merging the same fetched mapping twice is idempotent: merging P
into the store obtained by first merging P into E yields exactly the store
of the first merge, key order included. -/
theorem C8_idempotent (P E : PyDict PaperRecord)
    (hP : (dictKeys P).Nodup) (hE : (dictKeys E).Nodup) :
    pyDoubleSplat P (pyDoubleSplat P E) = pyDoubleSplat P E :=
  pyDoubleSplat_idem P E hP hE

/-- Witness for C8 on concrete one-entry dicts. -/
theorem C8_idempotent_witness :
    (dictKeys ([("2401.00002v1", rec1)] : PyDict PaperRecord)).Nodup ∧
    (dictKeys ([("2401.00001v1", rec2)] : PyDict PaperRecord)).Nodup ∧
    pyDoubleSplat [("2401.00002v1", rec1)]
        (pyDoubleSplat [("2401.00002v1", rec1)] [("2401.00001v1", rec2)]) =
      pyDoubleSplat [("2401.00002v1", rec1)] [("2401.00001v1", rec2)] :=
  ⟨by decide, by decide,
   C8_idempotent [("2401.00002v1", rec1)] [("2401.00001v1", rec2)] (by decide) (by decide)⟩

/-- C9, counterexample: the claim says any version suffix is stripped,
so an identifier of the form base then v then digits maps to base. The code
cuts at the FIRST letter v, so the old-style identifier solv-int/9701001v1,
whose archive name holds a v, maps to sol instead of solv-int/9701001. -/
theorem C9_counterexample :
    cleanId ("solv-int/9701001" ++ "v" ++ "1") = "sol" ∧
    "sol" ≠ "solv-int/9701001" :=
  ⟨by decide, by decide⟩

/-- C9 (amended): the fetcher takes as canonical identifier the prefix
of the short identifier before its first letter v; hence for a base free of
the letter v followed by a version suffix the canonical identifier is the
base, an identifier free of the letter v is unchanged, and the record PDF
link is the arXiv abs URL of the canonical identifier. -/
theorem C9_amended (base n : String) (hbase : ∀ c ∈ base.data, c ≠ 'v')
    (result : ArxivHit) (codeApi : String → CodeApiOutcome) :
    cleanId (base ++ "v" ++ n) = base ∧
    (∀ s : String, (∀ c ∈ s.data, c ≠ 'v') → cleanId s = s) ∧
    (buildRecord result codeApi).2.pdf = "http://arxiv.org/abs/" ++ cleanId result.short_id := by
  refine ⟨?_, ?_, rfl⟩
  · unfold cleanId
    have hdata : (base ++ "v" ++ n).data = base.data ++ ('v' :: n.data) := by
      rw [String.data_append, String.data_append, List.append_assoc]
      rfl
    rw [hdata, takeWhile_all_append _ _ _
      (fun c hc => bne_iff_ne.mpr (hbase c hc))]
    show String.mk (base.data ++ []) = base
    rw [List.append_nil]
  · intro s hs
    unfold cleanId
    rw [List.takeWhile_eq_self_iff.mpr (fun c hc => bne_iff_ne.mpr (hs c hc))]

/-- Witness for C9 (amended) at a modern-style identifier. -/
theorem C9_amended_witness :
    (∀ c ∈ ("2401.00001" : String).data, c ≠ 'v') ∧
    (cleanId ("2401.00001" ++ "v" ++ "1") = "2401.00001" ∧
     (∀ s : String, (∀ c ∈ s.data, c ≠ 'v') → cleanId s = s) ∧
     (buildRecord sampleHit (fun _ => CodeApiOutcome.raised)).2.pdf =
       "http://arxiv.org/abs/" ++ cleanId sampleHit.short_id) :=
  ⟨by decide,
   C9_amended "2401.00001" "1" (by decide) sampleHit (fun _ => CodeApiOutcome.raised)⟩

/-- C10: for every category entry of a successfully parsed
configuration, load_config sets json_path to output_dir joined with
papers.json and md_path to output_dir joined with README.md, both
deterministic functions of output_dir alone. -/
theorem C10_derived_paths (c : ConfigIn) (entry : String × CategoryConfig)
    (h : entry ∈ (load_config c).categories) :
    entry.2.json_path = osPathJoin entry.2.output_dir "papers.json" ∧
    entry.2.md_path = osPathJoin entry.2.output_dir "README.md" := by
  obtain ⟨p, hp, rfl⟩ := List.mem_map.mp h
  exact ⟨rfl, rfl⟩

/-- Witness for C10 on a one-category configuration. -/
theorem C10_derived_paths_witness :
    sampleEntry ∈ (load_config sampleConfigIn).categories ∧
    (sampleEntry.2.json_path = osPathJoin sampleEntry.2.output_dir "papers.json" ∧
     sampleEntry.2.md_path = osPathJoin sampleEntry.2.output_dir "README.md") :=
  ⟨List.Mem.head _, C10_derived_paths sampleConfigIn sampleEntry (List.Mem.head _)⟩

end DailyArxiv
